import Mathlib

/-!
Verification of the authentication/authorization core of the acaimar-api
repository (`src/shared/auth.py`, `src/shared/services/users.py`,
`src/shared/utils/helpers.py`, `src/auth_register/__init__.py`).

Python strings are modelled as lists of Unicode code points (`List Nat`);
Python `str.lower`/`str.strip` are modelled on code points. The external
PyJWT library and the external bcrypt library are modelled at their
interface boundary: a JWT token string is an abstract `JwtToken` value
(either a well-formed payload signed with some secret, or malformed), and
bcrypt is a parameter structure whose `checkpw` may fail like the Python
function may raise.
-/

namespace Acaimar

/-- Python strings, modelled as lists of Unicode code points. -/
abbrev Str := List Nat

/-- Convert a Lean string literal into the code-point model. -/
def strOf (s : String) : Str := s.data.map Char.toNat

/-- ASCII lowercasing of one code point, as Python `str.lower` acts on
the ASCII range used by this code base. -/
def lowerCode (c : Nat) : Nat := if 65 ≤ c ∧ c ≤ 90 then c + 32 else c

/-- Python `str.lower`. -/
def pyLower (s : Str) : Str := s.map lowerCode

/-- Whitespace test used by Python `str.strip` (ASCII whitespace). -/
def isSpaceCode (c : Nat) : Bool := c = 32 || c = 9 || c = 10 || c = 11 || c = 12 || c = 13

/-- Remove leading whitespace. -/
def lstrip (s : Str) : Str := s.dropWhile isSpaceCode

/-- Remove trailing whitespace. -/
def rstrip (s : Str) : Str := (s.reverse.dropWhile isSpaceCode).reverse

/-- Python `str.strip`. -/
def pyStrip (s : Str) : Str := rstrip (lstrip s)

/-- Email normalization as written throughout the source:
`email.lower().strip()`. -/
def normalizeEmail (s : Str) : Str := pyStrip (pyLower s)

/-- The decoded JWT payload built by `generate_token`
(src/shared/auth.py lines 33-39): `user_id`, `email`, `role`, `exp`,
`iat`. Times are in seconds. -/
structure Payload where
  user_id : Str
  email : Str
  role : Str
  exp : Nat
  iat : Nat
deriving DecidableEq, Repr

/-- Modelled from the spec: a token string produced or consumed by the
external PyJWT library, at its interface boundary. A token is either a
well-formed payload signed with some secret, or a malformed string that
no secret decodes. -/
inductive JwtToken where
  | signed (payload : Payload) (secret : Str)
  | malformed (raw : Str)
deriving DecidableEq

/-- Modelled from the spec: the two PyJWT failure classes caught by
`verify_token` (`jwt.ExpiredSignatureError`, `jwt.InvalidTokenError`). -/
inductive JwtError where
  | expiredSignature
  | invalidToken
deriving DecidableEq

/-- Modelled from the spec: `jwt.encode(payload, secret, algorithm)`. -/
def jwtEncode (payload : Payload) (secret : Str) : JwtToken :=
  .signed payload secret

/-- Modelled from the spec: `jwt.decode(token, secret, algorithms)` —
verifies the signature against the configured secret, then checks that
the current time is strictly before `exp`; malformed encodings and
signature mismatches raise `InvalidTokenError`, a passed expiry raises
`ExpiredSignatureError`. -/
def jwtDecode (token : JwtToken) (secret : Str) (now : Nat) : Except JwtError Payload :=
  match token with
  | .malformed _ => .error .invalidToken
  | .signed payload s =>
    if s ≠ secret then .error .invalidToken
    else if payload.exp ≤ now then .error .expiredSignature
    else .ok payload

/-- `JWT_EXPIRATION_HOURS = 24` (src/shared/auth.py line 18). -/
def JWT_EXPIRATION_HOURS : Nat := 24

/-- `generate_token` (src/shared/auth.py lines 21-42). The source calls
`datetime.utcnow()` twice — once for `exp` and once for `iat` — so the
two clock readings are two parameters `now_exp` and `now_iat`. -/
def generate_token (secret : Str) (now_exp now_iat : Nat)
    (user_id email role : Str) : JwtToken :=
  jwtEncode
    { user_id := user_id, email := email, role := role,
      exp := now_exp + JWT_EXPIRATION_HOURS * 3600, iat := now_iat }
    secret

/-- `verify_token` (src/shared/auth.py lines 45-63): decode, returning
the payload on success and `none` on any `ExpiredSignatureError` or
`InvalidTokenError`. -/
def verify_token (secret : Str) (now : Nat) (token : JwtToken) : Option Payload :=
  match jwtDecode token secret now with
  | .ok payload => some payload
  | .error _ => none

/-- An HTTP response, modelled at the interface boundary of
src/shared/utils/responses.py: status code plus the message carried in
the JSON envelope (the JSON serialization itself is elided as trivial
wrapping, per the source's response helpers). -/
structure HttpResponse where
  status : Nat
  body : Str
deriving DecidableEq

/-- `error_response(error, status_code)` (src/shared/utils/responses.py). -/
def error_response (error : Str) (status_code : Nat) : HttpResponse :=
  { status := status_code, body := error }

/-- `unauthorized_response` (src/shared/utils/responses.py line 79-81). -/
def unauthorized_response (message : Str) : HttpResponse :=
  error_response message 401

/-- `forbidden_response` (src/shared/utils/responses.py line 84-86). -/
def forbidden_response (message : Str) : HttpResponse :=
  error_response message 403

/-- An inbound HTTP request, modelled with the parts the auth core
reads: the `Authorization` header (if present) and the `user` attribute
that `require_auth` attaches before invoking the wrapped handler. -/
structure HttpRequest where
  authorization : Option Str
  user : Option Payload := none
deriving DecidableEq

/-- The literal header marker `"Bearer "` (code points). -/
def bearerLit : Str := strOf "Bearer "

/-- `get_token_from_request` (src/shared/auth.py lines 66-84):
`req.headers.get('Authorization', '')`; `None` for an absent or empty
header; strip `"Bearer "` via `auth_header[7:]` when the header starts
with it; otherwise return the raw header value. -/
def get_token_from_request (req : HttpRequest) : Option Str :=
  let auth_header := req.authorization.getD []
  if auth_header.isEmpty then none
  else if bearerLit.isPrefixOf auth_header then some (auth_header.drop 7)
  else some auth_header

/-- Message of src/shared/auth.py line 106. -/
def authRequiredMsg : Str := strOf "Authentication required. Please provide a valid token."

/-- Message of src/shared/auth.py line 111. -/
def invalidTokenMsg : Str := strOf "Invalid or expired token. Please login again."

/-- Message of src/shared/auth.py line 115 (the f-string of the 403). -/
def roleMsg (required actual : Str) : Str :=
  strOf "This endpoint requires \x27" ++ required ++
    strOf "\x27 role. Your current role is \x27" ++ actual ++ strOf "\x27."

/-- Message of src/shared/auth.py line 123 (the f-string of the catch-all). -/
def authErrorMsg (e : Str) : Str := strOf "Authentication error: " ++ e

/-- The three computations the `require_auth` wrapper body performs, each
allowed to raise (`Except Str` carries `str(e)` of a raised exception):
token extraction, token verification, and the wrapped handler itself —
exactly the calls inside the `try` block of src/shared/auth.py
lines 102-120. -/
structure GateSteps where
  extract : HttpRequest → Except Str (Option Str)
  verify : Str → Except Str (Option Payload)
  handler : HttpRequest → Except Str HttpResponse

/-- The body of the `try` block of the `require_auth` wrapper
(src/shared/auth.py lines 102-120): extract the token; `if not token`
(absent or empty) → 401; verify; `if not payload` → 401; then
`if require_role and payload.get('role') != require_role` → 403 (note
Python truthiness: an empty `require_role` string skips the check);
otherwise attach the payload as `req.user` and invoke the handler. -/
def gateRun (steps : GateSteps) (require_role : Option Str)
    (req : HttpRequest) : Except Str HttpResponse :=
  match steps.extract req with
  | .error e => .error e
  | .ok none => .ok (unauthorized_response authRequiredMsg)
  | .ok (some token) =>
    if token.isEmpty then .ok (unauthorized_response authRequiredMsg)
    else
      match steps.verify token with
      | .error e => .error e
      | .ok none => .ok (unauthorized_response invalidTokenMsg)
      | .ok (some payload) =>
        match require_role with
        | none => steps.handler { req with user := some payload }
        | some r =>
          if r.isEmpty then steps.handler { req with user := some payload }
          else if payload.role = r then steps.handler { req with user := some payload }
          else .ok (forbidden_response (roleMsg r payload.role))

/-- The full `require_auth` wrapper (src/shared/auth.py lines 101-123):
run the body and catch any exception as
`unauthorized_response(f"Authentication error: {str(e)}")`. -/
def gateWrapper (steps : GateSteps) (require_role : Option Str)
    (req : HttpRequest) : HttpResponse :=
  match gateRun steps require_role req with
  | .ok resp => resp
  | .error e => unauthorized_response (authErrorMsg e)

/-- `require_auth(require_role)(handler)` applied to a request, with the
concrete (non-raising) extraction step and a token-verification function
(in the source, `verify_token` under the configured secret at the
current time). -/
def require_auth (verify : Str → Option Payload) (require_role : Option Str)
    (handler : HttpRequest → HttpResponse) (req : HttpRequest) : HttpResponse :=
  gateWrapper
    { extract := fun r => .ok (get_token_from_request r),
      verify := fun t => .ok (verify t),
      handler := fun r => .ok (handler r) }
    require_role req

/-- Modelled from the spec: a MongoDB document id — either a bson
`ObjectId` (carried with its `str()` rendering, the hex form) or a plain
string. -/
inductive MongoId where
  | oid (hex : Str)
  | strId (s : Str)
deriving DecidableEq

/-- `convert_objectid_to_str` on an id value
(src/shared/utils/helpers.py lines 8-20): an `ObjectId` becomes its
string form, anything else is left unchanged. -/
def mongoIdStr : MongoId → Str
  | .oid hex => hex
  | .strId s => s

/-- A stored user document (src/shared/services/users.py). The fields
read with dict defaults in `authenticate_user` — `password_hash`
(default `''`) and `active` (default `True`) — are `Option`s, modelling
their possible absence from a raw store document. -/
structure UserRec where
  _id : MongoId
  email : Str
  password_hash : Option Str
  name : Str
  role : Str
  created_at : Str
  active : Option Bool
deriving DecidableEq

/-- A user document as returned across the API boundary:
`password_hash` removed, `_id` coerced to a string. -/
structure SanitizedUser where
  _id : Str
  email : Str
  name : Str
  role : Str
  created_at : Str
  active : Option Bool
deriving DecidableEq

/-- `sanitize_user_response` (src/shared/utils/helpers.py lines 50-61):
convert the ObjectId, drop `password_hash`, keep everything else. -/
def sanitize_user_response (user : UserRec) : SanitizedUser :=
  { _id := mongoIdStr user._id, email := user.email, name := user.name,
    role := user.role, created_at := user.created_at, active := user.active }

/-- The `users` collection of the document store, modelled as the list
of stored documents in insertion order (`find_one` returns the first
match). -/
abbrev Db := List UserRec

/-- Modelled from the spec: the external bcrypt library at its
interface boundary. `hashpw` takes the password and the random salt of
`bcrypt.gensalt()`; `checkpw` may raise on malformed hash strings
(`Except Str` carries the raised message). -/
structure Bcrypt where
  hashpw : Str → Nat → Str
  checkpw : Str → Str → Except Str Bool

/-- `hash_password` (src/shared/services/users.py lines 11-21). -/
def hash_password (b : Bcrypt) (salt : Nat) (password : Str) : Str :=
  b.hashpw password salt

/-- `verify_password` (src/shared/services/users.py lines 24-38):
`bcrypt.checkpw` inside `try`, any exception yields `False`. -/
def verify_password (b : Bcrypt) (password password_hash : Str) : Bool :=
  match b.checkpw password password_hash with
  | .ok result => result
  | .error _ => false

/-- `find_user_by_email` (src/shared/services/users.py lines 41-52):
`find_one({"email": email.lower().strip()})`. -/
def find_user_by_email (db : Db) (email : Str) : Option UserRec :=
  db.find? (fun u => u.email == normalizeEmail email)

/-- `user_exists` (src/shared/services/users.py lines 55-65). -/
def user_exists (db : Db) (email : Str) : Bool :=
  (find_user_by_email db email).isSome

/-- `authenticate_user` (src/shared/services/users.py lines 152-178):
look up by email, reject an absent record, a record with
`active == False` (`user.get('active', True)`), an empty
`user.get('password_hash', '')`, or a failed `verify_password`; else
return the sanitized record. -/
def authenticate_user (b : Bcrypt) (db : Db) (email password : Str) :
    Option SanitizedUser :=
  match find_user_by_email db email with
  | none => none
  | some user =>
    if (user.active.getD true) = false then none
    else
      let password_hash := user.password_hash.getD []
      if password_hash.isEmpty then none
      else if verify_password b password password_hash = false then none
      else some (sanitize_user_response user)

/-- The ValueError message of src/shared/services/users.py line 109. -/
def alreadyExistsMsg : Str := strOf "User with this email already exists"

/-- The stored document built by `create_user`
(src/shared/services/users.py lines 114-122), with the store-assigned
id of `insert_one`; `email` is the already-normalized email of
line 105. -/
def newUserDoc (b : Bcrypt) (salt : Nat) (now_iso : Str) (assigned_id : MongoId)
    (email password name role : Str) : UserRec :=
  { _id := assigned_id, email := email,
    password_hash := some (hash_password b salt password),
    name := pyStrip name, role := role, created_at := now_iso,
    active := some true }

/-- `create_user` (src/shared/services/users.py lines 88-130): normalize
the email, raise `ValueError` if `user_exists`, else hash the password,
insert the document, and return the sanitized document with `_id` set to
`str(result.inserted_id)`. The result pairs the `ValueError`-or-value
outcome with the resulting collection state (unchanged when raising);
the random salt, the clock reading and the store-assigned id are
parameters. -/
def create_user (b : Bcrypt) (salt : Nat) (now_iso : Str) (assigned_id : MongoId)
    (db : Db) (email password name role : Str) :
    Except Str SanitizedUser × Db :=
  let email := normalizeEmail email
  if user_exists db email then (.error alreadyExistsMsg, db)
  else
    let user_doc := newUserDoc b salt now_iso assigned_id email password name role
    (.ok (sanitize_user_response { user_doc with _id := .strId (mongoIdStr assigned_id) }),
      db ++ [user_doc])

/-- The registration handler after validation
(src/auth_register/__init__.py lines 134-156): the `user_exists`
pre-check → 409; then `create_user`, whose `ValueError` is caught as
`error_response(str(e), 409)`; on success a 201 (the success body —
user fields plus a fresh token — is elided, only the status and the
collection state matter here). -/
def registerStep (b : Bcrypt) (salt : Nat) (now_iso : Str) (assigned_id : MongoId)
    (db : Db) (email password name role : Str) : HttpResponse × Db :=
  if user_exists db email then (error_response alreadyExistsMsg 409, db)
  else
    match create_user b salt now_iso assigned_id db email password name role with
    | (.ok _, db2) => ({ status := 201, body := [] }, db2)
    | (.error e, db2) => (error_response e 409, db2)

/-! ### Helper lemmas about the string model -/

theorem lowerCode_idem (c : Nat) : lowerCode (lowerCode c) = lowerCode c := by
  unfold lowerCode
  split
  · split
    · omega
    · rfl
  · rfl

theorem dropWhile_dropWhile (p : Nat → Bool) (l : Str) :
    (l.dropWhile p).dropWhile p = l.dropWhile p := by
  induction l with
  | nil => rfl
  | cons a t ih =>
    by_cases h : p a
    · simp [List.dropWhile_cons, h, ih]
    · simp [List.dropWhile_cons, h]

theorem dropWhile_suffix_exists (p : Nat → Bool) (l : Str) :
    ∃ t, t ++ l.dropWhile p = l := by
  induction l with
  | nil => exact ⟨[], rfl⟩
  | cons a t ih =>
    by_cases h : p a
    · obtain ⟨s, hs⟩ := ih
      exact ⟨a :: s, by simp [List.dropWhile_cons, h, hs]⟩
    · exact ⟨[], by simp [List.dropWhile_cons, h]⟩

theorem mem_of_mem_dropWhile {p : Nat → Bool} {l : Str} {a : Nat}
    (h : a ∈ l.dropWhile p) : a ∈ l := by
  obtain ⟨t, ht⟩ := dropWhile_suffix_exists p l
  rw [← ht]
  exact List.mem_append_right t h

theorem map_eq_self_of_fixed {f : Nat → Nat} {l : Str}
    (h : ∀ x ∈ l, f x = x) : l.map f = l := by
  induction l with
  | nil => rfl
  | cons a t ih =>
    simp only [List.map_cons, h a (List.mem_cons_self a t)]
    rw [ih (fun x hx => h x (List.mem_cons_of_mem a hx))]

theorem head_false_of_dropWhile_cons {p : Nat → Bool} {x : Nat} {xs : Str}
    (h : (x :: xs).dropWhile p = x :: xs) : p x = false := by
  have := List.dropWhile_eq_self_iff.mp h (by simp)
  simpa using this

theorem rstrip_prefix_exists (l : Str) : ∃ t, rstrip l ++ t = l := by
  obtain ⟨t, ht⟩ := dropWhile_suffix_exists isSpaceCode l.reverse
  refine ⟨t.reverse, ?_⟩
  unfold rstrip
  rw [← List.reverse_append, ht, List.reverse_reverse]

theorem mem_of_mem_rstrip {l : Str} {a : Nat} (h : a ∈ rstrip l) : a ∈ l := by
  unfold rstrip at h
  rw [List.mem_reverse] at h
  have := mem_of_mem_dropWhile h
  rwa [List.mem_reverse] at this

theorem lstrip_rstrip_of_lstrip {l : Str} (h : lstrip l = l) :
    lstrip (rstrip l) = rstrip l := by
  cases hr : rstrip l with
  | nil => rfl
  | cons x xs =>
    obtain ⟨t, ht⟩ := rstrip_prefix_exists l
    rw [hr] at ht
    have hx : isSpaceCode x = false := by
      have hl : l = x :: (xs ++ t) := by rw [← ht]; simp
      rw [hl] at h
      exact head_false_of_dropWhile_cons h
    unfold lstrip
    rw [List.dropWhile_cons, if_neg (by simp [hx])]

theorem rstrip_idem (l : Str) : rstrip (rstrip l) = rstrip l := by
  unfold rstrip
  rw [List.reverse_reverse, dropWhile_dropWhile]

theorem lowerCode_fixed_of_mem_pyLower {s : Str} {x : Nat}
    (h : x ∈ pyLower s) : lowerCode x = x := by
  unfold pyLower at h
  obtain ⟨y, _, hy⟩ := List.mem_map.mp h
  rw [← hy]
  exact lowerCode_idem y

/-- Normalizing an email is idempotent: `lower` then `strip` applied
twice gives the same result as once. -/
theorem normalizeEmail_idem (s : Str) :
    normalizeEmail (normalizeEmail s) = normalizeEmail s := by
  unfold normalizeEmail pyStrip
  have hfix : ∀ x ∈ rstrip (lstrip (pyLower s)), lowerCode x = x := by
    intro x hx
    exact lowerCode_fixed_of_mem_pyLower
      (mem_of_mem_dropWhile (mem_of_mem_rstrip hx))
  have hlow : pyLower (rstrip (lstrip (pyLower s))) = rstrip (lstrip (pyLower s)) :=
    map_eq_self_of_fixed hfix
  rw [hlow]
  have hl : lstrip (rstrip (lstrip (pyLower s))) = rstrip (lstrip (pyLower s)) :=
    lstrip_rstrip_of_lstrip (dropWhile_dropWhile isSpaceCode (pyLower s))
  rw [hl, rstrip_idem]

/-! ### Claim theorems -/

/-- Claim C2: for every input token, `verify_token` returns the `none`
sentinel rather than raising when the token is malformed, when it is
signed with a secret other than the configured one, or when its expiry
has passed; all three causes produce the same value `none`, so the
caller cannot distinguish them. -/
theorem C2_verify_token_invalid_sentinel (secret : Str) (now : Nat)
    (raw : Str) (p : Payload) (s : Str) :
    verify_token secret now (.malformed raw) = none ∧
    (s ≠ secret → verify_token secret now (.signed p s) = none) ∧
    (p.exp ≤ now → verify_token secret now (.signed p s) = none) := by
  refine ⟨rfl, ?_, ?_⟩
  · intro h
    simp [verify_token, jwtDecode, h]
  · intro h
    unfold verify_token jwtDecode
    by_cases hs : s ≠ secret
    · simp [hs]
    · simp [hs, h]

/-- Witness for C2 at concrete tokens: a malformed token, a token signed
with secret `[1]` checked against secret `[]`, and an expired token. -/
theorem C2_verify_token_invalid_sentinel_witness :
    verify_token [] 0 (.malformed [7]) = none ∧
    verify_token [] 0 (.signed { user_id := [], email := [], role := [], exp := 10, iat := 0 } [1]) = none ∧
    verify_token [1] 20 (.signed { user_id := [], email := [], role := [], exp := 10, iat := 0 } [1]) = none :=
  ⟨(C2_verify_token_invalid_sentinel [] 0 [7]
      { user_id := [], email := [], role := [], exp := 10, iat := 0 } [1]).1,
   (C2_verify_token_invalid_sentinel [] 0 [7]
      { user_id := [], email := [], role := [], exp := 10, iat := 0 } [1]).2.1 (by decide),
   (C2_verify_token_invalid_sentinel [1] 20 [7]
      { user_id := [], email := [], role := [], exp := 10, iat := 0 } [1]).2.2 (by decide)⟩

/-- Claim C3: a token issued by `generate_token` with first clock
reading `T` decodes successfully under the same secret at any time `T1`
with `T ≤ T1 < T + 24h`, yielding the issued `user_id`, `email` and
`role`; at any time `T2 ≥ T + 24h` it decodes to `none` even though the
signature is valid. -/
theorem C3_round_trip (secret uid em role : Str) (T now_iat T1 T2 : Nat)
    (_h1 : T ≤ T1) (h2 : T1 < T + JWT_EXPIRATION_HOURS * 3600)
    (h3 : T + JWT_EXPIRATION_HOURS * 3600 ≤ T2) :
    verify_token secret T1 (generate_token secret T now_iat uid em role) =
      some { user_id := uid, email := em, role := role,
             exp := T + JWT_EXPIRATION_HOURS * 3600, iat := now_iat } ∧
    verify_token secret T2 (generate_token secret T now_iat uid em role) = none := by
  constructor
  · unfold verify_token generate_token jwtEncode jwtDecode
    simp only [ne_eq, not_true_eq_false, if_false]
    rw [if_neg (by simp; omega)]
  · unfold verify_token generate_token jwtEncode jwtDecode
    simp only [ne_eq, not_true_eq_false, if_false]
    rw [if_pos (by simpa using h3)]

/-- Witness for C3 at a concrete issuance: secret `[3]`, issued at
`T = 100`, checked at `T1 = 100` and at `T2 = 100 + 86400`. -/
theorem C3_round_trip_witness :
    verify_token [3] 100 (generate_token [3] 100 100 [9] [8] [7]) =
      some { user_id := [9], email := [8], role := [7], exp := 100 + 86400, iat := 100 } ∧
    verify_token [3] 86500 (generate_token [3] 100 100 [9] [8] [7]) = none :=
  C3_round_trip [3] [9] [8] [7] 100 100 100 86500
    (by decide) (by decide) (by decide)

/-- Claim C5 counterexample: `generate_token` reads the clock twice
(once for `exp`, once for `iat`); with readings `0` and `1` the produced
claims have `exp = 86400` and `iat = 1`, so `exp ≠ iat + 24h`. -/
theorem C5_exp_iat_counterexample :
    generate_token [] 0 1 [] [] [] =
      .signed { user_id := [], email := [], role := [], exp := 86400, iat := 1 } [] ∧
    (86400 : Nat) ≠ 1 + 86400 := by
  exact ⟨rfl, by decide⟩

/-- Claim C5 (amended): whenever the two clock readings of
`generate_token` coincide, the produced claims satisfy
`exp = iat + 24 * 3600`. -/
theorem C5_exp_iat_invariant (secret uid em role : Str) (now : Nat)
    (p : Payload) (s : Str)
    (h : generate_token secret now now uid em role = .signed p s) :
    p.exp = p.iat + JWT_EXPIRATION_HOURS * 3600 := by
  unfold generate_token jwtEncode at h
  injection h with h1 h2
  rw [← h1]

/-- Witness for the amended C5 at clock reading `5`. -/
theorem C5_exp_iat_invariant_witness :
    (Payload.exp { user_id := [2], email := [3], role := [4], exp := 5 + 86400, iat := 5 }) =
      (Payload.iat { user_id := [2], email := [3], role := [4], exp := 5 + 86400, iat := 5 }) +
        JWT_EXPIRATION_HOURS * 3600 :=
  C5_exp_iat_invariant [1] [2] [3] [4] 5
    { user_id := [2], email := [3], role := [4], exp := 5 + 86400, iat := 5 } [1] rfl

theorem isPrefixOf_append_self (l t : Str) : l.isPrefixOf (l ++ t) = true := by
  induction l with
  | nil => simp [List.isPrefixOf]
  | cons a as ih => simp [List.isPrefixOf, ih]

/-- Claim C6: `get_token_from_request` returns `none` for an absent or
empty `Authorization` header; a header value starting with the literal
`"Bearer "` is returned with exactly that one prefixed marker removed;
any other non-empty header value is returned unchanged. -/
theorem C6_get_token_from_request (hv t : Str) :
    get_token_from_request { authorization := none } = none ∧
    get_token_from_request { authorization := some [] } = none ∧
    get_token_from_request { authorization := some (bearerLit ++ t) } = some t ∧
    (hv ≠ [] → bearerLit.isPrefixOf hv = false →
      get_token_from_request { authorization := some hv } = some hv) := by
  refine ⟨rfl, rfl, ?_, ?_⟩
  · have hne : (bearerLit ++ t).isEmpty = false := by
      rw [show bearerLit = [66, 101, 97, 114, 101, 114, 32] from rfl]
      rfl
    simp only [get_token_from_request, Option.getD_some]
    rw [hne]
    simp only [Bool.false_eq_true, if_false]
    rw [isPrefixOf_append_self, if_pos rfl]
    rw [show (7 : Nat) = bearerLit.length from rfl, List.drop_left]
  · intro h1 h2
    have hne : hv.isEmpty = false := by
      cases hv with
      | nil => exact absurd rfl h1
      | cons a as => rfl
    simp only [get_token_from_request, Option.getD_some]
    rw [hne]
    simp only [Bool.false_eq_true, if_false]
    rw [h2]
    simp

/-- Witness for C6: a `"Bearer "`-prefixed header with token code `[1]`
and a bare non-empty header `[1]`. -/
theorem C6_get_token_from_request_witness :
    get_token_from_request { authorization := some (bearerLit ++ [1]) } = some [1] ∧
    get_token_from_request { authorization := some [1] } = some [1] :=
  ⟨(C6_get_token_from_request [1] [1]).2.2.1,
   (C6_get_token_from_request [1] [1]).2.2.2 (by decide) (by decide)⟩

/-- Claim C9: `verify_password` is a total boolean function: when
`bcrypt.checkpw` raises (malformed hash input) the exception is
swallowed and the result is `false`; when it returns a boolean, that
boolean is the result. -/
theorem C9_verify_password_never_raises (b : Bcrypt) (password hs : Str) :
    (∀ e, b.checkpw password hs = .error e → verify_password b password hs = false) ∧
    (∀ r, b.checkpw password hs = .ok r → verify_password b password hs = r) := by
  constructor <;> intro x h <;> simp [verify_password, h]

/-- Witness for C9: a bcrypt model whose `checkpw` always raises
(message code `[73]`) yields `false`. -/
theorem C9_verify_password_never_raises_witness :
    verify_password ⟨fun p _ => p, fun _ _ => .error [73]⟩ [1] [2] = false :=
  (C9_verify_password_never_raises ⟨fun p _ => p, fun _ _ => .error [73]⟩ [1] [2]).1
    [73] rfl

/-- Claim C1: the guarded handler produced by `require_auth` checks
presence, validity and role strictly in that order and short-circuits:
a missing (or empty) token yields the 401 "authentication required"
response for every wrapped handler; a present token that verifies to
`none` yields the 401 "invalid or expired" response for every handler;
a decoded payload whose role differs from a non-empty `require_role`
yields the 403 role response for every handler; otherwise the result is
the wrapped handler's response on the request with the payload attached
as `user`. -/
theorem C1_require_auth_order (verify : Str → Option Payload) (rr : Option Str)
    (handler : HttpRequest → HttpResponse) (req : HttpRequest) :
    ((get_token_from_request req = none ∨ get_token_from_request req = some []) →
      require_auth verify rr handler req = unauthorized_response authRequiredMsg) ∧
    (∀ t, get_token_from_request req = some t → t ≠ [] → verify t = none →
      require_auth verify rr handler req = unauthorized_response invalidTokenMsg) ∧
    (∀ t p r, get_token_from_request req = some t → t ≠ [] → verify t = some p →
      rr = some r → r ≠ [] → p.role ≠ r →
      require_auth verify rr handler req = forbidden_response (roleMsg r p.role)) ∧
    (∀ t p, get_token_from_request req = some t → t ≠ [] → verify t = some p →
      (rr = none ∨ (∃ r, rr = some r ∧ (r = [] ∨ p.role = r))) →
      require_auth verify rr handler req = handler { req with user := some p }) := by
  refine ⟨?_, ?_, ?_, ?_⟩
  · intro h
    rcases h with h | h <;> simp [require_auth, gateWrapper, gateRun, h]
  · intro t ht htne hv
    have h1 : t.isEmpty = false := by
      cases t with
      | nil => exact absurd rfl htne
      | cons a as => rfl
    simp [require_auth, gateWrapper, gateRun, ht, h1, hv]
  · intro t p r ht htne hv hrr hrne hrole
    have h1 : t.isEmpty = false := by
      cases t with
      | nil => exact absurd rfl htne
      | cons a as => rfl
    have h2 : r.isEmpty = false := by
      cases r with
      | nil => exact absurd rfl hrne
      | cons a as => rfl
    simp [require_auth, gateWrapper, gateRun, ht, h1, hv, hrr, h2, hrole]
  · intro t p ht htne hv hrr
    have h1 : t.isEmpty = false := by
      cases t with
      | nil => exact absurd rfl htne
      | cons a as => rfl
    rcases hrr with h | ⟨r, hr, hcase⟩
    · simp [require_auth, gateWrapper, gateRun, ht, h1, hv, h]
    · rcases hcase with h2 | h2
      · simp [require_auth, gateWrapper, gateRun, ht, h1, hv, hr, h2]
      · by_cases h3 : r.isEmpty = true
        · simp [require_auth, gateWrapper, gateRun, ht, h1, hv, hr, h3]
        · by_cases h4 : p.role = r
          · simp [require_auth, gateWrapper, gateRun, ht, h1, hv, hr, h3, h4]
          · exact absurd h2 h4

/-- Witness for C1, exercising all four branches at concrete inputs:
no header; header `[1]` with a verifier rejecting everything; header
`[1]` with a verifier returning role `[97]` against required role
`[98]`; and the same verifier with no required role, reaching a constant
handler. -/
theorem C1_require_auth_order_witness :
    require_auth (fun _ => none) none (fun _ => { status := 200, body := [] })
      { authorization := none } = unauthorized_response authRequiredMsg ∧
    require_auth (fun _ => none) none (fun _ => { status := 200, body := [] })
      { authorization := some [1] } = unauthorized_response invalidTokenMsg ∧
    require_auth (fun _ => some { user_id := [], email := [], role := [97], exp := 1, iat := 0 })
      (some [98]) (fun _ => { status := 200, body := [] })
      { authorization := some [1] } =
      forbidden_response (roleMsg [98] [97]) ∧
    require_auth (fun _ => some { user_id := [], email := [], role := [97], exp := 1, iat := 0 })
      none (fun _ => { status := 200, body := [] })
      { authorization := some [1] } = { status := 200, body := [] } :=
  ⟨(C1_require_auth_order (fun _ => none) none (fun _ => { status := 200, body := [] })
      { authorization := none }).1 (Or.inl rfl),
   (C1_require_auth_order (fun _ => none) none (fun _ => { status := 200, body := [] })
      { authorization := some [1] }).2.1 [1] rfl (by decide) rfl,
   (C1_require_auth_order
      (fun _ => some { user_id := [], email := [], role := [97], exp := 1, iat := 0 })
      (some [98]) (fun _ => { status := 200, body := [] })
      { authorization := some [1] }).2.2.1 [1]
      { user_id := [], email := [], role := [97], exp := 1, iat := 0 } [98]
      rfl (by decide) rfl rfl (by decide) (by decide),
   (C1_require_auth_order
      (fun _ => some { user_id := [], email := [], role := [97], exp := 1, iat := 0 })
      none (fun _ => { status := 200, body := [] })
      { authorization := some [1] }).2.2.2 [1]
      { user_id := [], email := [], role := [97], exp := 1, iat := 0 }
      rfl (by decide) rfl (Or.inl rfl)⟩

/-- Claim C7: the guarded handler never lets an exception escape: the
wrapper is a total function into responses, and whenever the wrapped
body raises (any of the fallible steps returns an error `e`), the
result is the 401 response whose body is the "Authentication error"
message carrying `e` — never a 500; when the body completes, its
response is returned unchanged. -/
theorem C7_gate_never_raises (steps : GateSteps) (rr : Option Str) (req : HttpRequest) :
    (∀ e, gateRun steps rr req = .error e →
      gateWrapper steps rr req = unauthorized_response (authErrorMsg e) ∧
      (gateWrapper steps rr req).status = 401 ∧
      (gateWrapper steps rr req).body = strOf "Authentication error: " ++ e) ∧
    (∀ resp, gateRun steps rr req = .ok resp → gateWrapper steps rr req = resp) := by
  constructor
  · intro e h
    unfold gateWrapper
    rw [h]
    exact ⟨rfl, rfl, rfl⟩
  · intro resp h
    unfold gateWrapper
    rw [h]

/-- Witness for C7: a gate whose extraction step raises with message
code `[98]` produces the 401 authentication-error response. -/
theorem C7_gate_never_raises_witness :
    gateWrapper
      ⟨fun _ => .error [98], fun _ => .ok none, fun _ => .ok { status := 200, body := [] }⟩
      none { authorization := none } =
      unauthorized_response (authErrorMsg [98]) :=
  ((C7_gate_never_raises
      ⟨fun _ => .error [98], fun _ => .ok none, fun _ => .ok { status := 200, body := [] }⟩
      none { authorization := none }).1 [98] rfl).1

/-- Claim C10: a request whose `Authorization` header is exactly
`"Bearer "` extracts to the empty-string token, which the gate treats
like an absent token: for every verifier, required role and handler it
answers the 401 "authentication required" response — identical to the
response for a request with no `Authorization` header — and the
verifier is never consulted (the response is the same for every
verifier). -/
theorem C10_bearer_only_header (verify : Str → Option Payload) (rr : Option Str)
    (handler : HttpRequest → HttpResponse) :
    get_token_from_request { authorization := some bearerLit } = some [] ∧
    require_auth verify rr handler { authorization := some bearerLit } =
      unauthorized_response authRequiredMsg ∧
    require_auth verify rr handler { authorization := none } =
      unauthorized_response authRequiredMsg := by
  refine ⟨by decide, ?_, rfl⟩
  have h : get_token_from_request { authorization := some bearerLit } = some [] := by decide
  simp [require_auth, gateWrapper, gateRun, h]

/-- Claim C4: `authenticate_user` looks up the record under the
normalized email (so two inputs with equal normalizations authenticate
identically) and returns `none` for an absent record, an inactive
record, an empty stored hash, or a failed password verification — all
indistinguishably — and otherwise returns the sanitized record. -/
theorem C4_authenticate_user (b : Bcrypt) (db : Db) (email email2 password : Str) :
    (find_user_by_email db email = none →
      authenticate_user b db email password = none) ∧
    (∀ u, find_user_by_email db email = some u → u.active.getD true = false →
      authenticate_user b db email password = none) ∧
    (∀ u, find_user_by_email db email = some u → u.active.getD true = true →
      u.password_hash.getD [] = [] →
      authenticate_user b db email password = none) ∧
    (∀ u, find_user_by_email db email = some u → u.active.getD true = true →
      u.password_hash.getD [] ≠ [] →
      verify_password b password (u.password_hash.getD []) = false →
      authenticate_user b db email password = none) ∧
    (∀ u, find_user_by_email db email = some u → u.active.getD true = true →
      u.password_hash.getD [] ≠ [] →
      verify_password b password (u.password_hash.getD []) = true →
      authenticate_user b db email password = some (sanitize_user_response u)) ∧
    (normalizeEmail email = normalizeEmail email2 →
      authenticate_user b db email password = authenticate_user b db email2 password) := by
  refine ⟨?_, ?_, ?_, ?_, ?_, ?_⟩
  · intro h
    simp [authenticate_user, h]
  · intro u hf ha
    simp [authenticate_user, hf, ha]
  · intro u hf ha hph
    have hemp : (u.password_hash.getD []).isEmpty = true := by rw [hph]; rfl
    simp [authenticate_user, hf, ha, hemp]
  · intro u hf ha hph hvp
    have hemp : (u.password_hash.getD []).isEmpty = false := by
      cases hc : u.password_hash.getD [] with
      | nil => exact absurd hc hph
      | cons a as => rfl
    simp [authenticate_user, hf, ha, hemp, hvp]
  · intro u hf ha hph hvp
    have hemp : (u.password_hash.getD []).isEmpty = false := by
      cases hc : u.password_hash.getD [] with
      | nil => exact absurd hc hph
      | cons a as => rfl
    simp [authenticate_user, hf, ha, hemp, hvp]
  · intro h
    unfold authenticate_user find_user_by_email
    simp only [h]

/-- Witness for C4: an empty store rejects; a store holding the user
with email code `[97]` and hash `[5]` accepts password `[5]` under a
bcrypt model comparing for equality, and authenticating with the email
`[65, 32]` (`"A "`) behaves identically to `[97]` (`"a"`). -/
theorem C4_authenticate_user_witness :
    authenticate_user ⟨fun p _ => p, fun p h => .ok (p == h)⟩ [] [97] [5] = none ∧
    authenticate_user ⟨fun p _ => p, fun p h => .ok (p == h)⟩
      [{ _id := .oid [1], email := [97], password_hash := some [5], name := [],
         role := [], created_at := [], active := some true }] [97] [5] =
      some (sanitize_user_response
        { _id := .oid [1], email := [97], password_hash := some [5], name := [],
          role := [], created_at := [], active := some true }) ∧
    authenticate_user ⟨fun p _ => p, fun p h => .ok (p == h)⟩
      [{ _id := .oid [1], email := [97], password_hash := some [5], name := [],
         role := [], created_at := [], active := some true }] [65, 32] [5] =
      authenticate_user ⟨fun p _ => p, fun p h => .ok (p == h)⟩
      [{ _id := .oid [1], email := [97], password_hash := some [5], name := [],
         role := [], created_at := [], active := some true }] [97] [5] :=
  ⟨(C4_authenticate_user ⟨fun p _ => p, fun p h => .ok (p == h)⟩ [] [97] [97] [5]).1 rfl,
   (C4_authenticate_user ⟨fun p _ => p, fun p h => .ok (p == h)⟩
      [{ _id := .oid [1], email := [97], password_hash := some [5], name := [],
         role := [], created_at := [], active := some true }] [97] [97] [5]).2.2.2.2.1
      { _id := .oid [1], email := [97], password_hash := some [5], name := [],
        role := [], created_at := [], active := some true }
      (by decide) (by decide) (by decide) (by decide),
   (C4_authenticate_user ⟨fun p _ => p, fun p h => .ok (p == h)⟩
      [{ _id := .oid [1], email := [97], password_hash := some [5], name := [],
         role := [], created_at := [], active := some true }] [65, 32] [97] [5]).2.2.2.2.2
      (by decide)⟩

theorem user_exists_normalize (db : Db) (e : Str) :
    user_exists db (normalizeEmail e) = user_exists db e := by
  unfold user_exists find_user_by_email
  rw [normalizeEmail_idem]

theorem find_none_of_user_exists_false {db : Db} {e : Str}
    (h : user_exists db e = false) :
    db.find? (fun u => u.email == normalizeEmail e) = none := by
  unfold user_exists find_user_by_email at h
  cases hc : db.find? (fun u => u.email == normalizeEmail e) with
  | none => rfl
  | some u => rw [hc] at h; simp at h

/-- Claim C8: registering into a store with no record under the
normalized email succeeds with 201 and appends exactly one document;
a second registration whose email has the same normalization — any
case or surrounding-whitespace variant — answers 409 with the
"already exists" error and leaves the store unchanged. -/
theorem C8_register_duplicate (b b2 : Bcrypt) (salt salt2 : Nat) (now now2 : Str)
    (aid aid2 : MongoId) (db : Db) (e1 p1 n1 r1 e2 p2 n2 r2 : Str)
    (hfree : user_exists db e1 = false)
    (hnorm : normalizeEmail e1 = normalizeEmail e2) :
    registerStep b salt now aid db e1 p1 n1 r1 =
      ({ status := 201, body := [] },
        db ++ [newUserDoc b salt now aid (normalizeEmail e1) p1 n1 r1]) ∧
    registerStep b2 salt2 now2 aid2
        (db ++ [newUserDoc b salt now aid (normalizeEmail e1) p1 n1 r1]) e2 p2 n2 r2 =
      (error_response alreadyExistsMsg 409,
        db ++ [newUserDoc b salt now aid (normalizeEmail e1) p1 n1 r1]) := by
  have hfree2 : user_exists db (normalizeEmail e1) = false := by
    rw [user_exists_normalize, hfree]
  constructor
  · simp [registerStep, create_user, hfree, hfree2]
  · have hdb : db.find? (fun u => u.email == normalizeEmail e2) = none := by
      simp only [← hnorm]
      exact find_none_of_user_exists_false hfree
    have hdup : user_exists
        (db ++ [newUserDoc b salt now aid (normalizeEmail e1) p1 n1 r1]) e2 = true := by
      unfold user_exists find_user_by_email
      rw [List.find?_append, hdb]
      simp [List.find?, newUserDoc, hnorm]
    simp [registerStep, hdup]

/-- Witness for C8: register email `[65]` (`"A"`) into the empty store,
then register `[97, 32]` (`"a "`) — same normalization — and hit the
409 conflict with the store unchanged. -/
theorem C8_register_duplicate_witness :
    registerStep ⟨fun p _ => p, fun _ _ => .ok true⟩ 0 [] (.oid [1]) [] [65] [2] [3] [4] =
      ({ status := 201, body := [] },
        [newUserDoc ⟨fun p _ => p, fun _ _ => .ok true⟩ 0 [] (.oid [1])
          (normalizeEmail [65]) [2] [3] [4]]) ∧
    registerStep ⟨fun p _ => p, fun _ _ => .ok true⟩ 0 [] (.oid [1])
        [newUserDoc ⟨fun p _ => p, fun _ _ => .ok true⟩ 0 [] (.oid [1])
          (normalizeEmail [65]) [2] [3] [4]] [97, 32] [6] [7] [8] =
      (error_response alreadyExistsMsg 409,
        [newUserDoc ⟨fun p _ => p, fun _ _ => .ok true⟩ 0 [] (.oid [1])
          (normalizeEmail [65]) [2] [3] [4]]) :=
  C8_register_duplicate ⟨fun p _ => p, fun _ _ => .ok true⟩
    ⟨fun p _ => p, fun _ _ => .ok true⟩ 0 0 [] [] (.oid [1]) (.oid [1]) []
    [65] [2] [3] [4] [97, 32] [6] [7] [8] (by decide) (by decide)

end Acaimar
